import Mathlib

/-!
Shallow embedding of the `nature_cover_colors` cover-analysis pipeline
(`test.py`) and proofs about it.

The pipeline downloads Nature cover images into an on-disk cache, extracts an
average color and a 64×64 thumbnail from each, maps the color to an
approximate visible-spectrum wavelength via the HSV hue, classifies each
thumbnail as dark or light by mean grayscale intensity, and renders two
wavelength-sorted groups.

Modelling conventions:
* the file system is an explicit association list from path to contents, the
  most recent write shadowing earlier entries;
* HTTP fetching is a function from (volume, issue) to `Option Content`:
  `some body` models a 200 response with that body, `none` models any
  non-200 status;
* image decoding, resizing, JPEG encoding and thumbnail-save success are
  abstract parameters (`ImgEnv`), since PIL's codecs are outside the program;
  a decoded RGB image is its pixel list;
* Python exceptions are `Except String`: an exception escaping a function is
  `Except.error`;
* Python floats are modelled as `ℚ` (the concrete values the claims mention
  are exactly representable, so no rounding is at stake);
* `list.sort(key=...)` (Timsort, documented stable) is modelled by
  `List.mergeSort` on the key order, which is stable.
-/

namespace NatureCovers

/-- Abstract file contents. The pipeline never inspects raw bytes itself; it
only hands them to the image decoder, so a `Nat` token suffices. -/
abbrev Content := Nat

/-- The file system: an association list from path to contents.  The most
recent write shadows earlier entries; `lookup` finds the most recent one. -/
abbrev FS := List (String × Content)

/-- `Path.exists()` / reading a file: the most recent write at this path. -/
def FS.lookup (fs : FS) (p : String) : Option Content :=
  (fs.find? (fun e => e.1 == p)).map (fun e => e.2)

/-- Writing a file at a path (`open("wb").write`). -/
def FS.write (fs : FS) (p : String) (c : Content) : FS :=
  (p, c) :: fs

/-- `OUTPUT_DIR / f"nature_\x7bvolume\x7d_\x7bissue\x7d.jpg"` (test.py line 32):
the deterministic cache path of a cover image. -/
def cover_path (volume issue : String) : String :=
  "nature_covers/nature_" ++ volume ++ "_" ++ issue ++ ".jpg"

/-- The characters after the last slash of a path (its final component). -/
def lastComponent (cs : List Char) : List Char :=
  cs.foldl (fun acc c => if c = '/' then [] else acc ++ [c]) []

/-- Drop the last extension: everything from the last dot on.  A name with no
dot is returned unchanged. -/
def dropLastExt (cs : List Char) : List Char :=
  match (cs.reverse.dropWhile (fun c => !(c = '.'))) with
  | [] => cs
  | _ :: rest => rest.reverse

/-- `pathlib.Path.stem`: final path component without its last suffix. -/
def stem (p : String) : String :=
  String.mk (dropLastExt (lastComponent p.data))

/-- `THUMBNAIL_DIR / f"\x7bimage_path.stem\x7d_thumbnail.jpg"` (test.py
line 48): the deterministic thumbnail path derived from a cover path. -/
def thumb_path (image_path : String) : String :=
  "nature_thumbnails/" ++ stem image_path ++ "_thumbnail.jpg"

/-- `NATURE_URL_TEMPLATE.format(volume=..., issue=...)` (test.py line 23). -/
def nature_url (volume issue : String) : String :=
  "https://www.nature.com/nature/volumes/" ++ volume ++ "/issues/" ++ issue

/--
`download_cover(volume, issue)` (test.py lines 29–40).

```python
image_path = OUTPUT_DIR / f"nature_{volume}_{issue}.jpg"
if not image_path.exists():
    response = requests.get(image_url, stream=True)
    if response.status_code == 200:
        with image_path.open("wb") as f:
            f.write(response.content)
        return image_path
return image_path
```

Returns the updated file system, the reported path, and the number of HTTP
requests issued (0 on a cache hit, 1 otherwise).  `fetch volume issue = some
body` models a 200 response whose body is written verbatim; `none` models any
non-200 status, in which case nothing is written but the deterministic path is
still returned.
-/
def download_cover (fetch : String → String → Option Content) (fs : FS)
    (volume issue : String) : FS × String × Nat :=
  let image_path := cover_path volume issue
  if (fs.lookup image_path).isSome then
    (fs, image_path, 0)
  else
    match fetch volume issue with
    | some body => (fs.write image_path body, image_path, 1)
    | none => (fs, image_path, 1)

/-- A decoded RGB image: its list of pixels, each an (r, g, b) triple of
channel values (0–255 in practice). -/
abbrev RgbImg := List (Nat × Nat × Nat)

/-- The abstract imaging environment: PIL codecs and the thumbnail writer.
`decode bytes = none` models `Image.open`/`convert` raising on corrupt or
unreadable data; `resize` is `img.resize((64, 64))`; `encode` produces the
JPEG bytes written for a thumbnail; `saveOk p = false` models
`img_resized.save(p)` raising. -/
structure ImgEnv where
  decode : Content → Option RgbImg
  resize : RgbImg → RgbImg
  encode : RgbImg → Content
  saveOk : String → Bool

/-- `np.mean(img_array, axis=(0,1)).astype(int)` (test.py line 58): the mean
of each channel over all pixels, truncated to an integer.  Channel values are
nonnegative, so truncation is `Nat` floor division.  (A real thumbnail always
has 64×64 pixels, so the empty case never arises in the program.) -/
def avg_color (img : RgbImg) : Nat × Nat × Nat :=
  ((img.map (fun px => px.1)).sum / img.length,
   (img.map (fun px => px.2.1)).sum / img.length,
   (img.map (fun px => px.2.2)).sum / img.length)

/--
`get_average_color(image_path)` (test.py lines 43–60).

```python
img = Image.open(image_path).convert("RGB")
img_resized = img.resize((64, 64))
thumbnail_path = THUMBNAIL_DIR / f"{image_path.stem}_thumbnail.jpg"
try:
    img_resized.save(thumbnail_path, format="JPEG")
except Exception as e:
    print(...)
    return (0, 0, 0), thumbnail_path
img_array = np.array(img_resized)
avg_color = tuple(np.mean(img_array, axis=(0, 1)).astype(int))
return avg_color, thumbnail_path
```

Note that `Image.open(...).convert("RGB")` is OUTSIDE the `try`: a missing
file (`FileNotFoundError`) or undecodable content raises and the exception
escapes the function.  Only a failure of `img_resized.save` is caught and
degraded to the sentinel `(0, 0, 0)`.
-/
def get_average_color (env : ImgEnv) (fs : FS) (image_path : String) :
    Except String (FS × (Nat × Nat × Nat) × String) :=
  match fs.lookup image_path with
  | none => Except.error ("FileNotFoundError: " ++ image_path)
  | some bytes =>
    match env.decode bytes with
    | none => Except.error ("UnidentifiedImageError: " ++ image_path)
    | some img =>
      let img_resized := env.resize img
      let thumbnail_path := thumb_path image_path
      if env.saveOk thumbnail_path then
        Except.ok (fs.write thumbnail_path (env.encode img_resized),
                   avg_color img_resized, thumbnail_path)
      else
        Except.ok (fs, (0, 0, 0), thumbnail_path)

/--
The hue component of `colorsys.rgb_to_hsv(r, g, b)` from the Python standard
library, over exact rationals:

```python
maxc = max(r, g, b)
minc = min(r, g, b)
rangec = (maxc-minc)
if minc == maxc:
    return 0.0, 0.0, v
rc = (maxc-r) / rangec
gc = (maxc-g) / rangec
bc = (maxc-b) / rangec
if r == maxc:
    h = bc-gc
elif g == maxc:
    h = 2.0+rc-bc
else:
    h = 4.0+gc-rc
h = (h/6.0) % 1.0
```

Python's float `%` is `a - b * floor(a / b)`, so `% 1.0` is `Int.fract`.
Achromatic inputs (`minc == maxc`) take the early return with hue `0.0`.
-/
def rgb_to_hsv_hue (r g b : ℚ) : ℚ :=
  let maxc := max r (max g b)
  let minc := min r (min g b)
  if minc = maxc then 0
  else
    let rangec := maxc - minc
    let rc := (maxc - r) / rangec
    let gc := (maxc - g) / rangec
    let bc := (maxc - b) / rangec
    let h := if r = maxc then bc - gc
      else if g = maxc then 2 + rc - bc
      else 4 + gc - rc
    Int.fract (h / 6)

/-- `rgb_to_wavelength(rgb)` (test.py lines 63–67): normalize each channel to
[0,1], take the HSV hue, and map it linearly onto 380–700 nm. -/
def rgb_to_wavelength (rgb : Nat × Nat × Nat) : ℚ :=
  let h := rgb_to_hsv_hue ((rgb.1 : ℚ) / 255) ((rgb.2.1 : ℚ) / 255)
    ((rgb.2.2 : ℚ) / 255)
  380 + (h * (700 - 380))

/-- `is_image_dark(image_path, threshold=100)` (test.py lines 70–74): the mean
of the grayscale pixel values, compared strictly against the threshold.  The
grayscale decoding (`convert("L")`) is outside the program; the function is
stated on the decoded pixel list.  `np.mean` of an empty array is NaN and
`NaN < threshold` is `False`, hence the empty guard; a real image always has
at least one pixel. -/
def is_image_dark (pixels : List Nat) (threshold : ℚ) : Bool :=
  if pixels.isEmpty then false
  else decide (((pixels.sum : ℚ) / (pixels.length : ℚ)) < threshold)

/-- The record assembled per issue (test.py lines 103–111), one field per key
of the Python dict.  `thumbnail_path_name` is the extra key that
`generate_html` adds while rendering (line 125); it is absent (`none`) on the
records the assembler produces. -/
structure Cover where
  volume : String
  issue : String
  image_path : String
  thumbnail_path : String
  thumbnail_path_name : Option String
  dominant_color : Nat × Nat × Nat
  wavelength : ℚ
  nature_url : String
deriving Repr, DecidableEq

/-- The key order of `covers_data.sort(key=lambda x: x["wavelength"])`. -/
def coverLE (a b : Cover) : Bool :=
  decide (a.wavelength ≤ b.wavelength)

/-- `list.sort(key=lambda x: x["wavelength"])` (test.py lines 113, 136, 137):
Python's sort is documented stable, so it is modelled by the stable
`List.mergeSort` on the wavelength order. -/
def sortCoversByWavelength (l : List Cover) : List Cover :=
  l.mergeSort coverLE

/-- The body of the loop of `process_nature_covers` (test.py lines 96–111)
over the flattened (volume, issue) pairs.  `if image_path:` in the source is
always true — `download_cover` always returns a (truthy) `Path` — so the
guard is not a branch here.  An exception escaping `get_average_color` aborts
the whole loop, which the `Except` short-circuit models. -/
def processPairs (fetch : String → String → Option Content) (env : ImgEnv) :
    FS → List (String × String) → Except String (FS × List Cover)
  | fs, [] => Except.ok (fs, [])
  | fs, (volume, issue) :: rest =>
    let dres := download_cover fetch fs volume issue
    match get_average_color env dres.1 dres.2.1 with
    | Except.error e => Except.error e
    | Except.ok (fs2, average_color, thumbnail_path) =>
      match processPairs fetch env fs2 rest with
      | Except.error e => Except.error e
      | Except.ok (fs3, covers) =>
        Except.ok (fs3,
          { volume := volume
            issue := issue
            image_path := dres.2.1
            thumbnail_path := thumbnail_path
            thumbnail_path_name := none
            dominant_color := average_color
            wavelength := rgb_to_wavelength average_color
            nature_url := nature_url volume issue } :: covers)

/-- `dict.items()` iteration order flattened to (volume, issue) pairs:
mapping order first, then list order. -/
def allPairs (issues_dict : List (String × List String)) :
    List (String × String) :=
  issues_dict.foldr
    (fun vi acc => (vi.2.map (fun issue => (vi.1, issue))) ++ acc) []

/-- The hard-coded `issues_dict` of test.py lines 80–93. -/
def issues_dict : List (String × List String) :=
  [("636", ["8041", "8042", "8043"]),
   ("635", ["8037", "8038", "8039", "8040"]),
   ("634", ["8033", "8034", "8035", "8036"]),
   ("633", ["8028", "8029", "8030", "8031"]),
   ("632", ["8024", "8025", "8026", "8027"]),
   ("631", ["8020", "8021", "8022", "8019"]),
   ("630", ["8015", "8016", "8017", "8018"]),
   ("629", ["8011", "8012", "8013", "8014"]),
   ("628", ["8006", "8007", "8008", "8009"]),
   ("627", ["8002", "8003", "8004", "8005"]),
   ("626", ["7998", "7999", "8000", "8001"]),
   ("625", ["7993", "7994", "7995", "7996"])]

/-- `process_nature_covers` (test.py lines 77–116), parametrized by the
issue mapping (the source hard-codes `issues_dict`): process every pair, then
sort the assembled records by wavelength.  The CSV dump writes exactly these
rows in this order and is not modelled further. -/
def process_nature_covers (fetch : String → String → Option Content)
    (env : ImgEnv) (fs : FS) (d : List (String × List String)) :
    Except String (FS × List Cover) :=
  match processPairs fetch env fs (allPairs d) with
  | Except.error e => Except.error e
  | Except.ok (fs', covers_data) =>
    Except.ok (fs', sortCoversByWavelength covers_data)

/-- The diagnostic printed for a record whose thumbnail is missing
(test.py line 133). -/
def missing_msg (p : String) : String :=
  "Missing Thumbnail: " ++ p

/--
The per-record loop of `generate_html` (test.py lines 121–133):

```python
for cover in covers_data:
    thumbnail_path = Path(cover["thumbnail_path"])
    cover["thumbnail_path_name"] = cover["thumbnail_path"]
    if thumbnail_path.exists():
        cover["thumbnail_path"] = thumbnail_path.resolve().as_uri()
        if is_image_dark(thumbnail_path):
            dark_covers.append(cover)
        else:
            light_covers.append(cover)
    else:
        print(f"Missing Thumbnail: {thumbnail_path}")
```

`ex` is thumbnail existence at render time, `loadGray` the grayscale decoding
of an existing thumbnail, `uri` the `resolve().as_uri()` absolutization
(it depends on the working directory, so it stays abstract).  Returns the
dark list, the light list, and the printed diagnostics, in loop order.
Note the loop MUTATES each record: it adds the `thumbnail_path_name` key and,
for existing thumbnails, overwrites `thumbnail_path` with the file URI.
-/
def splitCovers (ex : String → Bool) (loadGray : String → List Nat)
    (uri : String → String) : List Cover → List Cover × List Cover × List String
  | [] => ([], [], [])
  | cover :: rest =>
    let tp := cover.thumbnail_path
    let cover1 := { cover with thumbnail_path_name := some tp }
    if ex tp then
      let cover2 := { cover1 with thumbnail_path := uri tp }
      let r := splitCovers ex loadGray uri rest
      if is_image_dark (loadGray tp) 100 then
        (cover2 :: r.1, r.2.1, r.2.2)
      else
        (r.1, cover2 :: r.2.1, r.2.2)
    else
      let r := splitCovers ex loadGray uri rest
      (r.1, r.2.1, missing_msg tp :: r.2.2)

/-- `generate_html` (test.py lines 119–187): split the records into dark and
light groups, sort each group by wavelength, and report the diagnostics.  The
HTML string itself is pure templating over these two sorted lists and is not
modelled. -/
def generate_html (ex : String → Bool) (loadGray : String → List Nat)
    (uri : String → String) (covers_data : List Cover) :
    List Cover × List Cover × List String :=
  let r := splitCovers ex loadGray uri covers_data
  (sortCoversByWavelength r.1, sortCoversByWavelength r.2.1, r.2.2)

/-- The per-record transformation the `generate_html` loop applies before
appending a record to a group: add `thumbnail_path_name` and, when the
thumbnail exists, replace `thumbnail_path` by its file URI. -/
def annotateCover (ex : String → Bool) (uri : String → String) (c : Cover) :
    Cover :=
  let c1 := { c with thumbnail_path_name := some c.thumbnail_path }
  if ex c.thumbnail_path then { c1 with thumbnail_path := uri c.thumbnail_path }
  else c1

/-! ### General lemmas about the pipeline's sort -/

theorem coverLE_trans : ∀ a b c : Cover, coverLE a b → coverLE b c → coverLE a c := by
  intro a b c hab hbc
  simp only [coverLE, decide_eq_true_eq] at *
  exact le_trans hab hbc

theorem coverLE_total : ∀ a b : Cover, coverLE a b || coverLE b a := by
  intro a b
  simp only [coverLE, Bool.or_eq_true, decide_eq_true_eq]
  exact le_total a.wavelength b.wavelength

theorem sortCovers_sorted (l : List Cover) :
    (sortCoversByWavelength l).Pairwise
      (fun a b => a.wavelength ≤ b.wavelength) := by
  have h := List.sorted_mergeSort coverLE_trans coverLE_total l
  exact h.imp (fun hab => by simpa [coverLE] using hab)

theorem sortCovers_stable_pair {a b : Cover} {l : List Cover}
    (hsub : List.Sublist [a, b] l) (hab : a.wavelength ≤ b.wavelength) :
    List.Sublist [a, b] (sortCoversByWavelength l) :=
  List.pair_sublist_mergeSort coverLE_trans coverLE_total
    (by simpa [coverLE] using hab) hsub

theorem mem_sortCovers {c : Cover} {l : List Cover} :
    c ∈ sortCoversByWavelength l ↔ c ∈ l :=
  List.mem_mergeSort

/-! ### Lemmas about the spectral mapper -/

theorem rgb_to_hsv_hue_nonneg (r g b : ℚ) : 0 ≤ rgb_to_hsv_hue r g b := by
  unfold rgb_to_hsv_hue
  dsimp only
  split
  · exact le_refl 0
  · exact Int.fract_nonneg _

theorem rgb_to_hsv_hue_lt_one (r g b : ℚ) : rgb_to_hsv_hue r g b < 1 := by
  unfold rgb_to_hsv_hue
  dsimp only
  split
  · norm_num
  · exact Int.fract_lt_one _

theorem rgb_to_wavelength_ge (rgb : Nat × Nat × Nat) :
    380 ≤ rgb_to_wavelength rgb := by
  unfold rgb_to_wavelength
  dsimp only
  have h := rgb_to_hsv_hue_nonneg ((rgb.1 : ℚ) / 255) ((rgb.2.1 : ℚ) / 255)
    ((rgb.2.2 : ℚ) / 255)
  nlinarith

theorem rgb_to_wavelength_lt (rgb : Nat × Nat × Nat) :
    rgb_to_wavelength rgb < 700 := by
  unfold rgb_to_wavelength
  dsimp only
  have h := rgb_to_hsv_hue_lt_one ((rgb.1 : ℚ) / 255) ((rgb.2.1 : ℚ) / 255)
    ((rgb.2.2 : ℚ) / 255)
  nlinarith

/-! ### Claim C2: the wavelength mapper's formula and boundary values -/

/-- C2: for every RGB triple with channels in [0, 255], the wavelength mapper
returns exactly `380 + hue * (700 - 380)` where `hue` is the standard
RGB-to-HSV hue, which lies in [0, 1); in particular (255, 0, 0) maps to 380,
(0, 255, 0) to 380 + (1/3)·320 and (0, 0, 255) to 380 + (2/3)·320. -/
theorem rgb_to_wavelength_spec (r g b : Nat)
    (hr : r ≤ 255) (hg : g ≤ 255) (hb : b ≤ 255) :
    (rgb_to_wavelength (r, g, b) =
        380 + rgb_to_hsv_hue ((r : ℚ) / 255) ((g : ℚ) / 255) ((b : ℚ) / 255)
          * (700 - 380) ∧
      0 ≤ rgb_to_hsv_hue ((r : ℚ) / 255) ((g : ℚ) / 255) ((b : ℚ) / 255) ∧
      rgb_to_hsv_hue ((r : ℚ) / 255) ((g : ℚ) / 255) ((b : ℚ) / 255) < 1) ∧
    rgb_to_wavelength (255, 0, 0) = 380 ∧
    rgb_to_wavelength (0, 255, 0) = 380 + (1 / 3) * (700 - 380) ∧
    rgb_to_wavelength (0, 0, 255) = 380 + (2 / 3) * (700 - 380) := by
  refine ⟨⟨rfl, rgb_to_hsv_hue_nonneg _ _ _, rgb_to_hsv_hue_lt_one _ _ _⟩,
    ?_, ?_, ?_⟩
  · simp only [rgb_to_wavelength, rgb_to_hsv_hue]
    norm_num [min_def, max_def, Int.fract]
  · simp only [rgb_to_wavelength, rgb_to_hsv_hue]
    norm_num [min_def, max_def, Int.fract]
  · simp only [rgb_to_wavelength, rgb_to_hsv_hue]
    norm_num [min_def, max_def, Int.fract]

theorem rgb_to_wavelength_spec_witness :
    (rgb_to_wavelength (255, 0, 0) =
        380 + rgb_to_hsv_hue (((255 : Nat) : ℚ) / 255) (((0 : Nat) : ℚ) / 255)
          (((0 : Nat) : ℚ) / 255) * (700 - 380) ∧
      0 ≤ rgb_to_hsv_hue (((255 : Nat) : ℚ) / 255) (((0 : Nat) : ℚ) / 255)
          (((0 : Nat) : ℚ) / 255) ∧
      rgb_to_hsv_hue (((255 : Nat) : ℚ) / 255) (((0 : Nat) : ℚ) / 255)
          (((0 : Nat) : ℚ) / 255) < 1) ∧
    rgb_to_wavelength (255, 0, 0) = 380 ∧
    rgb_to_wavelength (0, 255, 0) = 380 + (1 / 3) * (700 - 380) ∧
    rgb_to_wavelength (0, 0, 255) = 380 + (2 / 3) * (700 - 380) :=
  rgb_to_wavelength_spec 255 0 0 (by decide) (by decide) (by decide)

/-! ### Claim C8: achromatic colors get the fallback hue 0 -/

/-- C8: for every achromatic RGB triple (r = g = b, including black, gray and
white), the wavelength mapper returns the defined, stable value 380 coming
from the fallback hue 0, rather than an undefined hue. -/
theorem rgb_to_wavelength_achromatic (v : Nat) (hv : v ≤ 255) :
    rgb_to_wavelength (v, v, v) = 380 := by
  simp [rgb_to_wavelength, rgb_to_hsv_hue]

theorem rgb_to_wavelength_achromatic_witness :
    rgb_to_wavelength (128, 128, 128) = 380 :=
  rgb_to_wavelength_achromatic 128 (by decide)

/-! ### Claim C10: the sentinel color is a black cover's signature -/

/-- C10: the sentinel color (0, 0, 0) maps to wavelength exactly 380, the
minimum of the range; the average color of a genuinely black image is the
same (0, 0, 0), so a failed extraction is indistinguishable from a black
cover; and a record carrying wavelength 380 sorts at (or tied for) the first
position of every wavelength-ordered list of pipeline records. -/
theorem sentinel_color_spec :
    rgb_to_wavelength (0, 0, 0) = 380 ∧
    (∀ rgb : Nat × Nat × Nat, 380 ≤ rgb_to_wavelength rgb) ∧
    (∀ n : Nat, avg_color (List.replicate n (0, 0, 0)) = (0, 0, 0)) ∧
    (∀ (l : List Cover) (c : Cover), c ∈ l → c.wavelength = 380 →
      (∀ c' ∈ l, 380 ≤ c'.wavelength) →
      ∃ c₀, (sortCoversByWavelength l).head? = some c₀ ∧
        c₀.wavelength = 380) := by
  refine ⟨?_, rgb_to_wavelength_ge, ?_, ?_⟩
  · simp [rgb_to_wavelength, rgb_to_hsv_hue]
  · intro n
    simp [avg_color, List.map_replicate, List.sum_replicate]
  · intro l c hc hwl hlb
    have hmem : c ∈ sortCoversByWavelength l := mem_sortCovers.mpr hc
    have hsorted := sortCovers_sorted l
    cases hsl : sortCoversByWavelength l with
    | nil => rw [hsl] at hmem; cases hmem
    | cons c₀ tl =>
      refine ⟨c₀, rfl, ?_⟩
      have hc₀l : c₀ ∈ l := mem_sortCovers.mp (hsl ▸ List.mem_cons_self c₀ tl)
      have hge : 380 ≤ c₀.wavelength := hlb c₀ hc₀l
      rw [hsl] at hmem hsorted
      rcases List.mem_cons.mp hmem with hceq | hctl
      · exact hceq ▸ hwl
      · have hle : c₀.wavelength ≤ c.wavelength :=
          (List.pairwise_cons.mp hsorted).1 c hctl
        exact le_antisymm (hwl ▸ hle) hge

/-- A concrete pipeline record used to instantiate theorems. -/
def blackCover : Cover :=
  { volume := "636"
    issue := "8041"
    image_path := cover_path ("636") ("8041")
    thumbnail_path := thumb_path (cover_path ("636") ("8041"))
    thumbnail_path_name := none
    dominant_color := (0, 0, 0)
    wavelength := 380
    nature_url := nature_url ("636") ("8041") }

theorem sentinel_color_spec_witness :
    ∃ c₀, (sortCoversByWavelength [blackCover]).head? = some c₀ ∧
      c₀.wavelength = 380 :=
  sentinel_color_spec.2.2.2 [blackCover] blackCover
    (List.mem_singleton_self blackCover) rfl
    (by intro c' hc'; simp only [List.mem_singleton] at hc'; subst hc'; norm_num [blackCover])

/-! ### Claim C4: the brightness classifier's threshold is strict -/

/-- C4: for every (grayscale) image and every threshold, the classifier
returns `true` iff the mean intensity over all pixels is strictly less than
the threshold; in particular an image whose mean is exactly 100 is classified
light (not dark) under the default threshold 100. -/
theorem is_image_dark_spec (pixels : List Nat) (t : ℚ) (h : pixels ≠ []) :
    (is_image_dark pixels t = true ↔
      ((pixels.sum : ℚ) / (pixels.length : ℚ)) < t) ∧
    (((pixels.sum : ℚ) / (pixels.length : ℚ)) = 100 →
      is_image_dark pixels 100 = false) := by
  have hne : pixels.isEmpty = false := by
    simpa [List.isEmpty_iff] using h
  constructor
  · simp [is_image_dark, hne]
  · intro hmean
    have heq : is_image_dark pixels 100 =
        decide (((pixels.sum : ℚ) / (pixels.length : ℚ)) < 100) := by
      simp [is_image_dark, hne]
    rw [heq, hmean]
    simp

theorem is_image_dark_spec_witness :
    (is_image_dark [100, 100] 50 = true ↔
      ((([100, 100] : List Nat).sum : ℚ) /
        (([100, 100] : List Nat).length : ℚ)) < 50) ∧
    (((([100, 100] : List Nat).sum : ℚ) /
        (([100, 100] : List Nat).length : ℚ)) = 100 →
      is_image_dark [100, 100] 100 = false) :=
  is_image_dark_spec [100, 100] 50 (by decide)

/-! ### Claim C5: acquirer cache behavior -/

/-- Looking up a path immediately after writing it finds that write. -/
theorem FS.lookup_write_self (fs : FS) (p : String) (c : Content) :
    (fs.write p c).lookup p = some c := by
  simp [FS.lookup, FS.write, List.find?]

/-- C5 (amended): a cache hit returns the deterministic path with no request
and no write (the file system is unchanged, so a pre-populated entry is
reused as-is); and two successive calls for the same identifier perform at
most one request in total, PROVIDED the file already exists or the (single)
fetch that the first call performs succeeds.  (If the first fetch comes back
non-200, nothing is written and the second call fetches again: the
unconditional "at most one fetch" of the claim fails, see the
counterexample.) -/
theorem download_cover_cache (fetch : String → String → Option Content)
    (fs : FS) (volume issue : String) :
    ((fs.lookup (cover_path volume issue)).isSome = true →
      download_cover fetch fs volume issue = (fs, cover_path volume issue, 0)) ∧
    ((fs.lookup (cover_path volume issue)).isSome = true ∨
        (fetch volume issue).isSome = true →
      (download_cover fetch fs volume issue).2.2 +
        (download_cover fetch (download_cover fetch fs volume issue).1
          volume issue).2.2 ≤ 1) := by
  constructor
  · intro h
    simp [download_cover, h]
  · intro h
    by_cases hlk : (fs.lookup (cover_path volume issue)).isSome = true
    · simp [download_cover, hlk]
    · have hf : (fetch volume issue).isSome = true := h.resolve_left hlk
      obtain ⟨body, hb⟩ := Option.isSome_iff_exists.mp hf
      simp only [Bool.not_eq_true] at hlk
      simp [download_cover, hlk, hb, FS.lookup_write_self]

/-- Counterexample to C5 as stated: with an empty cache and a fetch that
returns a non-200 status for volume 636 issue 8041, calling the acquirer
twice for that identifier performs two fetches, not at most one. -/
theorem download_cover_two_fetches :
    (download_cover (fun _ _ => none) [] ("636") ("8041")).2.2 +
      (download_cover (fun _ _ => none)
        (download_cover (fun _ _ => none) [] ("636") ("8041")).1
        ("636") ("8041")).2.2 = 2 := by
  rfl

/-- The pre-populated cache of the spec's cache-reuse scenario. -/
def cachedFS : FS := [(cover_path ("636") ("8041"), 42)]

theorem download_cover_cache_witness :
    download_cover (fun _ _ => none) cachedFS ("636") ("8041") =
      (cachedFS, cover_path ("636") ("8041"), 0) ∧
    (download_cover (fun _ _ => none) cachedFS ("636") ("8041")).2.2 +
      (download_cover (fun _ _ => none)
        (download_cover (fun _ _ => none) cachedFS ("636") ("8041")).1
        ("636") ("8041")).2.2 ≤ 1 :=
  ⟨(download_cover_cache (fun _ _ => none) cachedFS ("636") ("8041")).1
      (by decide),
   (download_cover_cache (fun _ _ => none) cachedFS ("636") ("8041")).2
      (Or.inl (by decide))⟩

/-! ### Claim C6: extractor error handling -/

/-- C6 (amended): when the image file is present and decodes, the extractor
never raises: in particular, on any failure while persisting the thumbnail it
returns the sentinel color (0, 0, 0) together with the thumbnail path instead
of propagating the exception.  (A missing or corrupt image, however, raises
at `Image.open`/`convert` time — that call is outside the `try` block — see
the counterexample.) -/
theorem get_average_color_save_failure (env : ImgEnv) (fs : FS) (p : String)
    (bytes : Content) (img : RgbImg)
    (hlook : fs.lookup p = some bytes) (hdec : env.decode bytes = some img) :
    (env.saveOk (thumb_path p) = false →
      get_average_color env fs p = Except.ok (fs, (0, 0, 0), thumb_path p)) ∧
    (∃ r, get_average_color env fs p = Except.ok r) := by
  constructor
  · intro hsave
    simp [get_average_color, hlook, hdec, hsave]
  · by_cases hsave : env.saveOk (thumb_path p) = true
    · exact ⟨(fs.write (thumb_path p) (env.encode (env.resize img)),
        avg_color (env.resize img), thumb_path p),
        by simp [get_average_color, hlook, hdec, hsave]⟩
    · simp only [Bool.not_eq_true] at hsave
      exact ⟨(fs, (0, 0, 0), thumb_path p),
        by simp [get_average_color, hlook, hdec, hsave]⟩

/-- An imaging environment whose decoder fails on every input: every file is
corrupt or unreadable. -/
def corruptEnv : ImgEnv :=
  { decode := fun _ => none
    resize := fun img => img
    encode := fun _ => 0
    saveOk := fun _ => true }

/-- Counterexample to C6 as stated: on a corrupt (undecodable) image the
extractor raises — `Image.open(...).convert("RGB")` is outside the `try`
block — rather than returning the sentinel. -/
theorem get_average_color_raises_on_corrupt :
    get_average_color corruptEnv [(cover_path ("636") ("8041"), 0)]
      (cover_path ("636") ("8041")) =
      Except.error ("UnidentifiedImageError: " ++ cover_path ("636") ("8041")) := by
  rfl

/-- An imaging environment where every image decodes but every thumbnail
save fails. -/
def saveFailEnv : ImgEnv :=
  { decode := fun _ => some [(1, 2, 3)]
    resize := fun img => img
    encode := fun _ => 0
    saveOk := fun _ => false }

theorem get_average_color_save_failure_witness :
    get_average_color saveFailEnv [(cover_path ("636") ("8041"), 5)]
      (cover_path ("636") ("8041")) =
      Except.ok ([(cover_path ("636") ("8041"), 5)], (0, 0, 0),
        thumb_path (cover_path ("636") ("8041"))) :=
  (get_average_color_save_failure saveFailEnv
    [(cover_path ("636") ("8041"), 5)] (cover_path ("636") ("8041"))
    5 [(1, 2, 3)] (by decide) (by decide)).1 (by decide)

/-! ### Claim C1: behavior of the pipeline on a non-200 fetch -/

/-- A fetch oracle returning a non-200 status for volume 636 issue 8041 and
succeeding for every other identifier. -/
def fetch404 : String → String → Option Content :=
  fun volume issue =>
    if volume == "636" && issue == "8041" then none else some 7

/-- An imaging environment where everything succeeds. -/
def okEnv : ImgEnv :=
  { decode := fun _ => some [(1, 2, 3)]
    resize := fun img => img
    encode := fun _ => 9
    saveOk := fun _ => true }

/-- The file-system state after the run over the single identifier
(636, 8042) against `fetch404` and `okEnv`: the fetched cover body and the
encoded thumbnail. -/
def c1fs : FS :=
  [(thumb_path (cover_path ("636") ("8042")), 9),
   (cover_path ("636") ("8042"), 7)]

/-- The record the run over the single identifier (636, 8042) assembles. -/
def cover8042 : Cover :=
  { volume := "636"
    issue := "8042"
    image_path := cover_path ("636") ("8042")
    thumbnail_path := thumb_path (cover_path ("636") ("8042"))
    thumbnail_path_name := none
    dominant_color := (1, 2, 3)
    wavelength := rgb_to_wavelength (1, 2, 3)
    nature_url := nature_url ("636") ("8042") }

/-- C1 fails on the code: the `if image_path:` guard in
`process_nature_covers` is always true (`download_cover` always returns a
truthy `Path`), so for an identifier whose fetch returned non-200 the
pipeline calls `get_average_color` on the missing file, `Image.open` raises
`FileNotFoundError`, and the whole run aborts: the remaining identifiers are
NOT processed.  With the failing identifier removed, the same run completes
and assembles the other identifier's record. -/
theorem process_nature_covers_crashes_on_404 :
    process_nature_covers fetch404 okEnv [] [("636", ["8041", "8042"])] =
      Except.error ("FileNotFoundError: " ++ cover_path ("636") ("8041")) ∧
    (∃ res, process_nature_covers fetch404 okEnv [] [("636", ["8042"])] =
      Except.ok res ∧ res.2.length = 1) := by
  constructor
  · rfl
  · have hpp : processPairs fetch404 okEnv []
        (allPairs [("636", ["8042"])]) =
        Except.ok (c1fs, [cover8042]) := rfl
    refine ⟨(c1fs, sortCoversByWavelength [cover8042]), ?_, ?_⟩
    · simp only [process_nature_covers, hpp]
    · simp [sortCoversByWavelength]

/-! ### The generate_html loop as filters and maps -/

theorem annotateCover_thumbnail_path_name (ex : String → Bool)
    (uri : String → String) (c : Cover) :
    (annotateCover ex uri c).thumbnail_path_name = some c.thumbnail_path := by
  unfold annotateCover
  dsimp only
  split <;> rfl

theorem annotateCover_inj_thumb {ex : String → Bool} {uri : String → String}
    {c₁ c₂ : Cover} (h : annotateCover ex uri c₁ = annotateCover ex uri c₂) :
    c₁.thumbnail_path = c₂.thumbnail_path := by
  have h1 := annotateCover_thumbnail_path_name ex uri c₁
  have h2 := annotateCover_thumbnail_path_name ex uri c₂
  rw [h] at h1
  rw [h1] at h2
  exact Option.some.inj h2

theorem annotateCover_preserves (ex : String → Bool) (uri : String → String)
    (c : Cover) :
    (annotateCover ex uri c).volume = c.volume ∧
    (annotateCover ex uri c).issue = c.issue ∧
    (annotateCover ex uri c).image_path = c.image_path ∧
    (annotateCover ex uri c).dominant_color = c.dominant_color ∧
    (annotateCover ex uri c).wavelength = c.wavelength ∧
    (annotateCover ex uri c).nature_url = c.nature_url := by
  unfold annotateCover
  dsimp only
  split <;> exact ⟨rfl, rfl, rfl, rfl, rfl, rfl⟩

/-- The loop of `generate_html` computed in closed form: the dark list is the
annotated existing-and-dark records in input order, the light list the
annotated existing-and-light ones, and the diagnostics are one message per
missing thumbnail, in input order. -/
theorem splitCovers_eq (ex : String → Bool) (loadGray : String → List Nat)
    (uri : String → String) (l : List Cover) :
    splitCovers ex loadGray uri l =
      ((l.filter (fun c => ex c.thumbnail_path &&
          is_image_dark (loadGray c.thumbnail_path) 100)).map
            (annotateCover ex uri),
       (l.filter (fun c => ex c.thumbnail_path &&
          !is_image_dark (loadGray c.thumbnail_path) 100)).map
            (annotateCover ex uri),
       (l.filter (fun c => !ex c.thumbnail_path)).map
         (fun c => missing_msg c.thumbnail_path)) := by
  induction l with
  | nil => rfl
  | cons c rest ih =>
    by_cases hex : ex c.thumbnail_path = true
    <;> by_cases hdk : is_image_dark (loadGray c.thumbnail_path) 100 = true
    <;> simp [splitCovers, List.filter_cons, hex, hdk, ih, annotateCover]

theorem mem_generate_html_dark {ex : String → Bool}
    {loadGray : String → List Nat} {uri : String → String}
    {covers : List Cover} {x : Cover} :
    x ∈ (generate_html ex loadGray uri covers).1 ↔
      ∃ c, c ∈ covers ∧ ex c.thumbnail_path = true ∧
        is_image_dark (loadGray c.thumbnail_path) 100 = true ∧
        annotateCover ex uri c = x := by
  unfold generate_html
  dsimp only
  rw [mem_sortCovers, splitCovers_eq]
  simp only [List.mem_map, List.mem_filter, Bool.and_eq_true]
  constructor
  · rintro ⟨c, ⟨hc, hex, hdk⟩, heq⟩
    exact ⟨c, hc, hex, hdk, heq⟩
  · rintro ⟨c, hc, hex, hdk, heq⟩
    exact ⟨c, ⟨hc, hex, hdk⟩, heq⟩

theorem mem_generate_html_light {ex : String → Bool}
    {loadGray : String → List Nat} {uri : String → String}
    {covers : List Cover} {x : Cover} :
    x ∈ (generate_html ex loadGray uri covers).2.1 ↔
      ∃ c, c ∈ covers ∧ ex c.thumbnail_path = true ∧
        is_image_dark (loadGray c.thumbnail_path) 100 = false ∧
        annotateCover ex uri c = x := by
  unfold generate_html
  dsimp only
  rw [mem_sortCovers, splitCovers_eq]
  simp only [List.mem_map, List.mem_filter, Bool.and_eq_true,
    Bool.not_eq_true']
  constructor
  · rintro ⟨c, ⟨hc, hex, hdk⟩, heq⟩
    exact ⟨c, hc, hex, hdk, heq⟩
  · rintro ⟨c, hc, hex, hdk, heq⟩
    exact ⟨c, ⟨hc, hex, hdk⟩, heq⟩

/-! ### Claim C3: all three outputs are stably sorted by wavelength -/

/-- C3: the unpartitioned record list and both rendered groups are sorted by
ascending wavelength; ties keep their original input order (the sorts are
stable), both in the full list and, for records landing in the same group,
inside each group; and re-running on equal inputs yields identical output. -/
theorem sorting_stable_deterministic (ex : String → Bool)
    (loadGray : String → List Nat) (uri : String → String) (l : List Cover) :
    ((sortCoversByWavelength l).Pairwise
        (fun a b => a.wavelength ≤ b.wavelength) ∧
      ∀ a b : Cover, List.Sublist [a, b] l → a.wavelength = b.wavelength →
        List.Sublist [a, b] (sortCoversByWavelength l)) ∧
    ((generate_html ex loadGray uri l).1.Pairwise
        (fun a b => a.wavelength ≤ b.wavelength) ∧
      (generate_html ex loadGray uri l).2.1.Pairwise
        (fun a b => a.wavelength ≤ b.wavelength)) ∧
    (∀ a b : Cover, List.Sublist [a, b] l → a.wavelength = b.wavelength →
      (ex a.thumbnail_path = true → ex b.thumbnail_path = true →
        ((is_image_dark (loadGray a.thumbnail_path) 100 = true →
          is_image_dark (loadGray b.thumbnail_path) 100 = true →
          List.Sublist [annotateCover ex uri a, annotateCover ex uri b]
            (generate_html ex loadGray uri l).1) ∧
         (is_image_dark (loadGray a.thumbnail_path) 100 = false →
          is_image_dark (loadGray b.thumbnail_path) 100 = false →
          List.Sublist [annotateCover ex uri a, annotateCover ex uri b]
            (generate_html ex loadGray uri l).2.1)))) ∧
    (∀ l₂ : List Cover, l = l₂ →
      sortCoversByWavelength l = sortCoversByWavelength l₂ ∧
      generate_html ex loadGray uri l = generate_html ex loadGray uri l₂) := by
  have hannwl : ∀ c : Cover,
      (annotateCover ex uri c).wavelength = c.wavelength :=
    fun c => (annotateCover_preserves ex uri c).2.2.2.2.1
  refine ⟨⟨sortCovers_sorted l, ?_⟩, ⟨?_, ?_⟩, ?_, ?_⟩
  · intro a b hsub hwl
    exact sortCovers_stable_pair hsub (le_of_eq hwl)
  · unfold generate_html
    dsimp only
    exact sortCovers_sorted _
  · unfold generate_html
    dsimp only
    exact sortCovers_sorted _
  · intro a b hsub hwl hexa hexb
    constructor
    · intro hda hdb
      unfold generate_html
      dsimp only
      rw [splitCovers_eq]
      dsimp only
      apply sortCovers_stable_pair
      · have h1 := hsub.filter (fun c => ex c.thumbnail_path &&
          is_image_dark (loadGray c.thumbnail_path) 100)
        have h2 : List.filter (fun c => ex c.thumbnail_path &&
            is_image_dark (loadGray c.thumbnail_path) 100) [a, b] = [a, b] := by
          simp [List.filter_cons, hexa, hexb, hda, hdb]
        rw [h2] at h1
        simpa using h1.map (annotateCover ex uri)
      · rw [hannwl a, hannwl b]
        exact le_of_eq hwl
    · intro hda hdb
      unfold generate_html
      dsimp only
      rw [splitCovers_eq]
      dsimp only
      apply sortCovers_stable_pair
      · have h1 := hsub.filter (fun c => ex c.thumbnail_path &&
          !is_image_dark (loadGray c.thumbnail_path) 100)
        have h2 : List.filter (fun c => ex c.thumbnail_path &&
            !is_image_dark (loadGray c.thumbnail_path) 100) [a, b] = [a, b] := by
          simp [List.filter_cons, hexa, hexb, hda, hdb]
        rw [h2] at h1
        simpa using h1.map (annotateCover ex uri)
      · rw [hannwl a, hannwl b]
        exact le_of_eq hwl
  · intro l₂ hl
    subst hl
    exact ⟨rfl, rfl⟩

/-- Two records with equal wavelengths, in input order, used to instantiate
the stability theorem. -/
def coverTieA : Cover :=
  { volume := "635"
    issue := "8037"
    image_path := cover_path ("635") ("8037")
    thumbnail_path := thumb_path (cover_path ("635") ("8037"))
    thumbnail_path_name := none
    dominant_color := (10, 20, 30)
    wavelength := 500
    nature_url := nature_url ("635") ("8037") }

def coverTieB : Cover :=
  { volume := "635"
    issue := "8038"
    image_path := cover_path ("635") ("8038")
    thumbnail_path := thumb_path (cover_path ("635") ("8038"))
    thumbnail_path_name := none
    dominant_color := (30, 20, 10)
    wavelength := 500
    nature_url := nature_url ("635") ("8038") }

theorem sorting_stable_deterministic_witness :
    List.Sublist [coverTieA, coverTieB]
      (sortCoversByWavelength [coverTieA, coverTieB]) :=
  (sorting_stable_deterministic (fun _ => true) (fun _ => [0]) (fun s => s)
    [coverTieA, coverTieB]).1.2 coverTieA coverTieB
    (List.Sublist.refl [coverTieA, coverTieB]) rfl

/-! ### Claim C7: the dark/light partition of the rendered gallery -/

/-- C7: every input record whose thumbnail exists at render time appears (in
annotated form) in exactly one of the dark and light groups; the identifiers
occurring in the two groups are exactly the identifiers of input records with
existing thumbnails; records with missing thumbnails are in neither group;
and one diagnostic is emitted per missing thumbnail, in input order. -/
theorem generate_html_partition (ex : String → Bool)
    (loadGray : String → List Nat) (uri : String → String)
    (covers : List Cover) :
    (∀ c ∈ covers, ex c.thumbnail_path = true →
      ((annotateCover ex uri c ∈ (generate_html ex loadGray uri covers).1 ∧
        annotateCover ex uri c ∉ (generate_html ex loadGray uri covers).2.1) ∨
       (annotateCover ex uri c ∈ (generate_html ex loadGray uri covers).2.1 ∧
        annotateCover ex uri c ∉ (generate_html ex loadGray uri covers).1))) ∧
    (∀ v i : String,
      ((∃ c ∈ (generate_html ex loadGray uri covers).1,
          c.volume = v ∧ c.issue = i) ∨
       (∃ c ∈ (generate_html ex loadGray uri covers).2.1,
          c.volume = v ∧ c.issue = i)) ↔
      (∃ c ∈ covers, ex c.thumbnail_path = true ∧
        c.volume = v ∧ c.issue = i)) ∧
    (∀ c ∈ covers, ex c.thumbnail_path = false →
      annotateCover ex uri c ∉ (generate_html ex loadGray uri covers).1 ∧
      annotateCover ex uri c ∉ (generate_html ex loadGray uri covers).2.1) ∧
    (generate_html ex loadGray uri covers).2.2 =
      (covers.filter (fun c => !ex c.thumbnail_path)).map
        (fun c => missing_msg c.thumbnail_path) := by
  refine ⟨?_, ?_, ?_, ?_⟩
  · intro c hc hex
    by_cases hdk : is_image_dark (loadGray c.thumbnail_path) 100 = true
    · left
      refine ⟨mem_generate_html_dark.mpr ⟨c, hc, hex, hdk, rfl⟩, ?_⟩
      intro hmem
      obtain ⟨c', _, _, hdk', heq⟩ := mem_generate_html_light.mp hmem
      rw [annotateCover_inj_thumb heq] at hdk'
      rw [hdk] at hdk'
      cases hdk'
    · right
      simp only [Bool.not_eq_true] at hdk
      refine ⟨mem_generate_html_light.mpr ⟨c, hc, hex, hdk, rfl⟩, ?_⟩
      intro hmem
      obtain ⟨c', _, _, hdk', heq⟩ := mem_generate_html_dark.mp hmem
      rw [annotateCover_inj_thumb heq] at hdk'
      rw [hdk] at hdk'
      cases hdk'
  · intro v i
    constructor
    · rintro (⟨x, hx, hv, hi⟩ | ⟨x, hx, hv, hi⟩)
      · obtain ⟨c, hc, hex, _, heq⟩ := mem_generate_html_dark.mp hx
        refine ⟨c, hc, hex, ?_, ?_⟩
        · rw [← hv, ← heq]
          exact ((annotateCover_preserves ex uri c).1).symm
        · rw [← hi, ← heq]
          exact ((annotateCover_preserves ex uri c).2.1).symm
      · obtain ⟨c, hc, hex, _, heq⟩ := mem_generate_html_light.mp hx
        refine ⟨c, hc, hex, ?_, ?_⟩
        · rw [← hv, ← heq]
          exact ((annotateCover_preserves ex uri c).1).symm
        · rw [← hi, ← heq]
          exact ((annotateCover_preserves ex uri c).2.1).symm
    · rintro ⟨c, hc, hex, hv, hi⟩
      by_cases hdk : is_image_dark (loadGray c.thumbnail_path) 100 = true
      · left
        refine ⟨annotateCover ex uri c,
          mem_generate_html_dark.mpr ⟨c, hc, hex, hdk, rfl⟩, ?_, ?_⟩
        · rw [(annotateCover_preserves ex uri c).1, hv]
        · rw [(annotateCover_preserves ex uri c).2.1, hi]
      · right
        simp only [Bool.not_eq_true] at hdk
        refine ⟨annotateCover ex uri c,
          mem_generate_html_light.mpr ⟨c, hc, hex, hdk, rfl⟩, ?_, ?_⟩
        · rw [(annotateCover_preserves ex uri c).1, hv]
        · rw [(annotateCover_preserves ex uri c).2.1, hi]
  · intro c hc hex
    constructor
    · intro hmem
      obtain ⟨c', _, hex', _, heq⟩ := mem_generate_html_dark.mp hmem
      rw [annotateCover_inj_thumb heq] at hex'
      rw [hex] at hex'
      cases hex'
    · intro hmem
      obtain ⟨c', _, hex', _, heq⟩ := mem_generate_html_light.mp hmem
      rw [annotateCover_inj_thumb heq] at hex'
      rw [hex] at hex'
      cases hex'
  · unfold generate_html
    dsimp only
    rw [splitCovers_eq]

/-- An existence oracle under which only `coverTieA`'s thumbnail exists. -/
def exOnlyTieA : String → Bool :=
  fun s => s == coverTieA.thumbnail_path

theorem generate_html_partition_witness :
    (annotateCover exOnlyTieA (fun s => s) coverTieA ∈
        (generate_html exOnlyTieA (fun _ => []) (fun s => s)
          [coverTieA, coverTieB]).1 ∧
      annotateCover exOnlyTieA (fun s => s) coverTieA ∉
        (generate_html exOnlyTieA (fun _ => []) (fun s => s)
          [coverTieA, coverTieB]).2.1) ∨
    (annotateCover exOnlyTieA (fun s => s) coverTieA ∈
        (generate_html exOnlyTieA (fun _ => []) (fun s => s)
          [coverTieA, coverTieB]).2.1 ∧
      annotateCover exOnlyTieA (fun s => s) coverTieA ∉
        (generate_html exOnlyTieA (fun _ => []) (fun s => s)
          [coverTieA, coverTieB]).1) :=
  (generate_html_partition exOnlyTieA (fun _ => []) (fun s => s)
    [coverTieA, coverTieB]).1 coverTieA (List.mem_cons_self _ _) (by decide)

/-! ### Claim C9: rendering annotates (and thereby mutates) the records -/

/-- An existence oracle under which every thumbnail exists. -/
def allExists : String → Bool := fun _ => true

/-- A render-time grayscale decoder (its value is irrelevant to the claims
below). -/
def grayEmpty : String → List Nat := fun _ => []

/-- A `resolve().as_uri()` absolutization for a working directory `/work`. -/
def uriAbs : String → String := fun s => "file:///work/" ++ s

/-- Counterexample to C9 as stated: rendering does NOT leave the records
unmodified.  For a record whose thumbnail exists, the record that reaches the
rendered group carries `thumbnail_path` rewritten to its absolute file URI,
which differs from the field value the assembler produced (the loop at
test.py lines 123–127 mutates the dict in place). -/
theorem generate_html_mutates_records :
    (generate_html allExists grayEmpty uriAbs [coverTieA]).2.1.map
        (fun c => c.thumbnail_path) =
      ["file:///work/" ++ coverTieA.thumbnail_path] ∧
    ¬ ("file:///work/" ++ coverTieA.thumbnail_path =
        coverTieA.thumbnail_path) := by
  constructor
  · simp [generate_html, splitCovers_eq, List.filter_cons, allExists,
      grayEmpty, is_image_dark, sortCoversByWavelength, annotateCover, uriAbs]
  · decide

/-- C9 (amended): rendering consumes the assembled records read-only in the
sense that the groups are built from per-record annotated COPIES
(`annotateCover`), and the annotation preserves `volume`, `issue`,
`image_path`, `dominant_color`, `wavelength` and `nature_url`; but it sets
`thumbnail_path_name` to the original thumbnail path and, for records whose
thumbnail exists, overwrites `thumbnail_path` with its file URI, so the field
values after rendering do NOT all equal the assembler's. -/
theorem generate_html_reads_and_annotates (ex : String → Bool)
    (loadGray : String → List Nat) (uri : String → String) (l : List Cover) :
    ((generate_html ex loadGray uri l).1 = sortCoversByWavelength
        ((l.filter (fun c => ex c.thumbnail_path &&
          is_image_dark (loadGray c.thumbnail_path) 100)).map
            (annotateCover ex uri)) ∧
      (generate_html ex loadGray uri l).2.1 = sortCoversByWavelength
        ((l.filter (fun c => ex c.thumbnail_path &&
          !is_image_dark (loadGray c.thumbnail_path) 100)).map
            (annotateCover ex uri))) ∧
    (∀ c : Cover,
      (annotateCover ex uri c).volume = c.volume ∧
      (annotateCover ex uri c).issue = c.issue ∧
      (annotateCover ex uri c).image_path = c.image_path ∧
      (annotateCover ex uri c).dominant_color = c.dominant_color ∧
      (annotateCover ex uri c).wavelength = c.wavelength ∧
      (annotateCover ex uri c).nature_url = c.nature_url ∧
      (annotateCover ex uri c).thumbnail_path_name = some c.thumbnail_path ∧
      (annotateCover ex uri c).thumbnail_path =
        (if ex c.thumbnail_path = true then uri c.thumbnail_path
         else c.thumbnail_path)) := by
  constructor
  · constructor
    · unfold generate_html
      dsimp only
      rw [splitCovers_eq]
    · unfold generate_html
      dsimp only
      rw [splitCovers_eq]
  · intro c
    obtain ⟨h1, h2, h3, h4, h5, h6⟩ := annotateCover_preserves ex uri c
    refine ⟨h1, h2, h3, h4, h5, h6,
      annotateCover_thumbnail_path_name ex uri c, ?_⟩
    by_cases hex : ex c.thumbnail_path = true
    · simp [annotateCover, hex]
    · simp only [Bool.not_eq_true] at hex
      simp [annotateCover, hex]

end NatureCovers
